import Mathlib

/-!
Verification of the docudactyl FFI surface: the two C headers
`src/ffi/zig/include/docudactyl_ffi.h` and
`src/generated/abi/docudactyl_ffi.h`.

The headers declare flat C structs (wire records), enumerations, and
bitmask constants.  We embed the struct declarations as lists of fields
(name, size, alignment) and compute their layout with the standard
C/System V rules: each field is placed at the next multiple of its
alignment, the struct's alignment is the maximum field alignment, and
the struct's size is the end offset rounded up to the struct alignment.
Sizes and alignments of the scalar types are the LP64 ones the headers
assume via their `_Static_assert` lines: `int32_t` 4/4, `int64_t` 8/8,
`double` 8/8, `uint8_t`/`int8_t`/`char` 1/1, `char [n]` n/1.
-/

/-- A C struct field: its name, its size in bytes and its alignment. -/
structure CField where
  name : String
  size : Nat
  align : Nat
deriving DecidableEq, Repr

/-- Round `off` up to the next multiple of `a` (C field placement). -/
def alignTo (off a : Nat) : Nat := ((off + a - 1) / a) * a

/-- The computed layout of a C struct: the byte offset of every field,
the total size (with trailing padding) and the alignment. -/
structure CLayout where
  offsets : List (String × Nat)
  size : Nat
  align : Nat
deriving DecidableEq, Repr

/-- Place each field at the next multiple of its alignment, threading
the running offset and the maximum alignment seen so far. -/
def layoutFields : List CField → Nat → Nat → (List (String × Nat) × Nat × Nat)
  | [], off, al => ([], off, al)
  | f :: rest, off, al =>
      let o := alignTo off f.align
      let (tl, endOff, maxAl) := layoutFields rest (o + f.size) (max al f.align)
      ((f.name, o) :: tl, endOff, maxAl)

/-- Full C layout of a struct given its field list: offsets, then the
end offset rounded up to the struct alignment, and that alignment. -/
def structLayout (fields : List CField) : CLayout :=
  let (offs, endOff, maxAl) := layoutFields fields 0 1
  ⟨offs, alignTo endOff maxAl, maxAl⟩

/-- Offset of a named field in a computed layout. -/
def fieldOffset (l : CLayout) (n : String) : Option Nat :=
  (l.offsets.find? (fun p => p.1 = n)).map Prod.snd

/-- `ddac_parse_result_t` as declared in the generated ABI header
`src/generated/abi/docudactyl_ffi.h`, lines 107-122. -/
def ddac_parse_result_gen : List CField :=
  [⟨"status", 4, 4⟩, ⟨"content_kind", 4, 4⟩, ⟨"page_count", 4, 4⟩,
   ⟨"_pad0", 4, 4⟩, ⟨"word_count", 8, 8⟩, ⟨"char_count", 8, 8⟩,
   ⟨"duration_sec", 8, 8⟩, ⟨"parse_time_ms", 8, 8⟩, ⟨"sha256", 65, 1⟩,
   ⟨"_pad1", 7, 1⟩, ⟨"error_msg", 256, 1⟩, ⟨"title", 256, 1⟩,
   ⟨"author", 256, 1⟩, ⟨"mime_type", 64, 1⟩]

/-- `ddac_parse_result_t` as declared in the Zig FFI header
`src/ffi/zig/include/docudactyl_ffi.h`, lines 21-35: same fields except
that there is no `_pad1[7]` between `sha256` and `error_msg`. -/
def ddac_parse_result_zig : List CField :=
  [⟨"status", 4, 4⟩, ⟨"content_kind", 4, 4⟩, ⟨"page_count", 4, 4⟩,
   ⟨"_pad0", 4, 4⟩, ⟨"word_count", 8, 8⟩, ⟨"char_count", 8, 8⟩,
   ⟨"duration_sec", 8, 8⟩, ⟨"parse_time_ms", 8, 8⟩, ⟨"sha256", 65, 1⟩,
   ⟨"error_msg", 256, 1⟩, ⟨"title", 256, 1⟩,
   ⟨"author", 256, 1⟩, ⟨"mime_type", 64, 1⟩]

/-- The sizes asserted by the `_Static_assert` lines of the generated
ABI header for `ddac_parse_result_t` (lines 124-127). -/
def ddac_parse_result_assert_size : Nat := 952

/-- Asserted alignment of `ddac_parse_result_t` (generated header). -/
def ddac_parse_result_assert_align : Nat := 8

/-- The ParseResult wire record as the spec's external-interface section
enumerates it, field by field: int32 status; int32 content kind; int32
page count; int32 padding; int64 word count; int64 char count; double
duration seconds; double parse time ms; 65-byte NUL-terminated hex
fingerprint + 7 bytes padding; 256-byte error message; 256-byte title;
256-byte author; 64-byte MIME type. -/
def spec_parse_result_fields : List CField :=
  [⟨"status", 4, 4⟩, ⟨"content kind", 4, 4⟩, ⟨"page count", 4, 4⟩,
   ⟨"padding", 4, 4⟩, ⟨"word count", 8, 8⟩, ⟨"char count", 8, 8⟩,
   ⟨"duration seconds", 8, 8⟩, ⟨"parse time ms", 8, 8⟩,
   ⟨"fingerprint", 65, 1⟩, ⟨"padding2", 7, 1⟩, ⟨"error message", 256, 1⟩,
   ⟨"title", 256, 1⟩, ⟨"author", 256, 1⟩, ⟨"MIME type", 64, 1⟩]

/-- `ddac_ml_result_t` (generated header, lines 206-216): three
one-byte fields, 5 bytes padding, then int64 inference time, int64
output count, double confidence, int64 text offset, int64 text length. -/
def ddac_ml_result : List CField :=
  [⟨"status", 1, 1⟩, ⟨"stage", 1, 1⟩, ⟨"provider", 1, 1⟩, ⟨"_pad", 5, 1⟩,
   ⟨"inference_time_us", 8, 8⟩, ⟨"output_count", 8, 8⟩,
   ⟨"confidence", 8, 8⟩, ⟨"text_offset", 8, 8⟩, ⟨"text_length", 8, 8⟩]

/-- Size asserted for `ddac_ml_result_t` (generated header, line 218). -/
def ddac_ml_result_assert_size : Nat := 48

/-- Alignment asserted for `ddac_ml_result_t` (line 220). -/
def ddac_ml_result_assert_align : Nat := 8

/-- Size stated by the comment above `ddac_ml_result_t` (line 205 says
"56 bytes"), at odds with the `_Static_assert` two lines below it. -/
def ddac_ml_result_comment_size : Nat := 56

/-- `ddac_ocr_result_t` (generated header, lines 288-297). -/
def ddac_ocr_result : List CField :=
  [⟨"status", 1, 1⟩, ⟨"confidence", 1, 1⟩, ⟨"_pad", 6, 1⟩,
   ⟨"char_count", 8, 8⟩, ⟨"word_count", 8, 8⟩, ⟨"gpu_time_us", 8, 8⟩,
   ⟨"text_offset", 8, 8⟩, ⟨"text_length", 8, 8⟩]

/-- Size asserted for `ddac_ocr_result_t` (line 299). -/
def ddac_ocr_result_assert_size : Nat := 48

/-- Alignment asserted for `ddac_ocr_result_t` (line 301). -/
def ddac_ocr_result_assert_align : Nat := 8

/-- `ddac_crypto_caps_t` (generated header, lines 249-259): six
one-byte feature flags, 2 bytes padding, the selected SHA-256 tier,
7 bytes padding. -/
def ddac_crypto_caps : List CField :=
  [⟨"has_sha_ni", 1, 1⟩, ⟨"has_avx2", 1, 1⟩, ⟨"has_avx512", 1, 1⟩,
   ⟨"has_arm_sha2", 1, 1⟩, ⟨"has_arm_sha512", 1, 1⟩, ⟨"has_aes_ni", 1, 1⟩,
   ⟨"_pad", 2, 1⟩, ⟨"sha256_tier", 1, 1⟩, ⟨"_pad2", 7, 1⟩]

/-- Size asserted for `ddac_crypto_caps_t` (line 261). -/
def ddac_crypto_caps_assert_size : Nat := 16

/-- `ddac_conduit_result_t` (generated header, lines 340-347). -/
def ddac_conduit_result : List CField :=
  [⟨"content_kind", 1, 1⟩, ⟨"validation", 1, 1⟩, ⟨"_pad", 6, 1⟩,
   ⟨"file_size", 8, 8⟩, ⟨"sha256", 65, 1⟩, ⟨"_pad2", 7, 1⟩]

/-- Size asserted for `ddac_conduit_result_t` (line 349). -/
def ddac_conduit_result_assert_size : Nat := 88

/-- Alignment asserted for `ddac_conduit_result_t` (line 351). -/
def ddac_conduit_result_assert_align : Nat := 8

/-!
Bitmask stage-flag constants of the generated ABI header, lines 57-104.
`UINT64_C(1) << k` on a 64-bit unsigned type never overflows for the
shifts used (k ≤ 20), so plain `Nat` values are exact.
-/

def DDAC_STAGE_NONE : Nat := 0
def DDAC_STAGE_LANGUAGE_DETECT : Nat := 1 <<< 0
def DDAC_STAGE_READABILITY : Nat := 1 <<< 1
def DDAC_STAGE_KEYWORDS : Nat := 1 <<< 2
def DDAC_STAGE_CITATION_EXTRACT : Nat := 1 <<< 3
def DDAC_STAGE_OCR_CONFIDENCE : Nat := 1 <<< 4
def DDAC_STAGE_PERCEPTUAL_HASH : Nat := 1 <<< 5
def DDAC_STAGE_TOC_EXTRACT : Nat := 1 <<< 6
def DDAC_STAGE_MULTI_LANG_OCR : Nat := 1 <<< 7
def DDAC_STAGE_SUBTITLE_EXTRACT : Nat := 1 <<< 8
def DDAC_STAGE_PREMIS_METADATA : Nat := 1 <<< 9
def DDAC_STAGE_MERKLE_PROOF : Nat := 1 <<< 10
def DDAC_STAGE_EXACT_DEDUP : Nat := 1 <<< 11
def DDAC_STAGE_NEAR_DEDUP : Nat := 1 <<< 12
def DDAC_STAGE_COORD_NORMALIZE : Nat := 1 <<< 13
def DDAC_STAGE_NER : Nat := 1 <<< 14
def DDAC_STAGE_WHISPER : Nat := 1 <<< 15
def DDAC_STAGE_IMAGE_CLASSIFY : Nat := 1 <<< 16
def DDAC_STAGE_LAYOUT_ANALYSIS : Nat := 1 <<< 17
def DDAC_STAGE_HANDWRITING_OCR : Nat := 1 <<< 18
def DDAC_STAGE_FORMAT_CONVERT : Nat := 1 <<< 19

/-- `DDAC_STAGE_ALL` (line 90): `(UINT64_C(1) << 20) - 1`. -/
def DDAC_STAGE_ALL : Nat := (1 <<< 20) - 1

/-- `DDAC_STAGE_FAST` (lines 91-97). -/
def DDAC_STAGE_FAST : Nat :=
  DDAC_STAGE_LANGUAGE_DETECT ||| DDAC_STAGE_READABILITY |||
  DDAC_STAGE_KEYWORDS ||| DDAC_STAGE_EXACT_DEDUP |||
  DDAC_STAGE_PREMIS_METADATA ||| DDAC_STAGE_MERKLE_PROOF |||
  DDAC_STAGE_CITATION_EXTRACT

/-- `DDAC_STAGE_ANALYSIS` (lines 98-104). -/
def DDAC_STAGE_ANALYSIS : Nat :=
  DDAC_STAGE_FAST ||| DDAC_STAGE_OCR_CONFIDENCE |||
  DDAC_STAGE_PERCEPTUAL_HASH ||| DDAC_STAGE_TOC_EXTRACT |||
  DDAC_STAGE_NEAR_DEDUP ||| DDAC_STAGE_COORD_NORMALIZE |||
  DDAC_STAGE_SUBTITLE_EXTRACT

/-- The twenty single-stage flag constants, in bit order 0-19. -/
def stage_flag_masks : List Nat :=
  [DDAC_STAGE_LANGUAGE_DETECT, DDAC_STAGE_READABILITY,
   DDAC_STAGE_KEYWORDS, DDAC_STAGE_CITATION_EXTRACT,
   DDAC_STAGE_OCR_CONFIDENCE, DDAC_STAGE_PERCEPTUAL_HASH,
   DDAC_STAGE_TOC_EXTRACT, DDAC_STAGE_MULTI_LANG_OCR,
   DDAC_STAGE_SUBTITLE_EXTRACT, DDAC_STAGE_PREMIS_METADATA,
   DDAC_STAGE_MERKLE_PROOF, DDAC_STAGE_EXACT_DEDUP,
   DDAC_STAGE_NEAR_DEDUP, DDAC_STAGE_COORD_NORMALIZE, DDAC_STAGE_NER,
   DDAC_STAGE_WHISPER, DDAC_STAGE_IMAGE_CLASSIFY,
   DDAC_STAGE_LAYOUT_ANALYSIS, DDAC_STAGE_HANDWRITING_OCR,
   DDAC_STAGE_FORMAT_CONVERT]

/-- `enum ddac_content_kind` (generated header, lines 25-33). -/
inductive ddac_content_kind
  | DDAC_PDF
  | DDAC_IMAGE
  | DDAC_AUDIO_
  | DDAC_VIDEO
  | DDAC_EPUB
  | DDAC_GEO_SPATIAL
  | DDAC_UNKNOWN
deriving DecidableEq, Fintype, Repr

/-- The integer value each `ddac_content_kind` constant is declared
with in the header. -/
def ddac_content_kind.code : ddac_content_kind → Nat
  | .DDAC_PDF => 0
  | .DDAC_IMAGE => 1
  | .DDAC_AUDIO_ => 2
  | .DDAC_VIDEO => 3
  | .DDAC_EPUB => 4
  | .DDAC_GEO_SPATIAL => 5
  | .DDAC_UNKNOWN => 6

/-- The content-kind constants in declaration order. -/
def content_kind_constants : List ddac_content_kind :=
  [.DDAC_PDF, .DDAC_IMAGE, .DDAC_AUDIO_, .DDAC_VIDEO, .DDAC_EPUB,
   .DDAC_GEO_SPATIAL, .DDAC_UNKNOWN]

/-- `enum ddac_parse_status` (generated header, lines 36-44). -/
inductive ddac_parse_status
  | DDAC_OK
  | DDAC_ERROR
  | DDAC_FILE_NOT_FOUND
  | DDAC_PARSE_ERROR
  | DDAC_NULL_POINTER
  | DDAC_UNSUPPORTED_FORMAT
  | DDAC_OUT_OF_MEMORY
deriving DecidableEq, Fintype, Repr

/-- The integer value each `ddac_parse_status` constant is declared
with in the header. -/
def ddac_parse_status.code : ddac_parse_status → Nat
  | .DDAC_OK => 0
  | .DDAC_ERROR => 1
  | .DDAC_FILE_NOT_FOUND => 2
  | .DDAC_PARSE_ERROR => 3
  | .DDAC_NULL_POINTER => 4
  | .DDAC_UNSUPPORTED_FORMAT => 5
  | .DDAC_OUT_OF_MEMORY => 6

/-- The parse-status constants in declaration order. -/
def parse_status_constants : List ddac_parse_status :=
  [.DDAC_OK, .DDAC_ERROR, .DDAC_FILE_NOT_FOUND, .DDAC_PARSE_ERROR,
   .DDAC_NULL_POINTER, .DDAC_UNSUPPORTED_FORMAT, .DDAC_OUT_OF_MEMORY]

/-!
The `ddac_parse` entry point is declared in both headers.  We embed a C
prototype as its return type and parameter-type list.  `int` and
`int32_t` are the same 4-byte type on the LP64 targets the headers
assume, so both are `c_int32` here.
-/

/-- The C types appearing in the two `ddac_parse` prototypes. -/
inductive CType
  | void_ptr
  | const_char_ptr
  | c_int32
  | c_uint64
  | parse_result_struct
deriving DecidableEq, Repr

/-- A C function prototype: return type and parameter types. -/
structure CFunDecl where
  ret : CType
  params : List CType
deriving DecidableEq, Repr

/-- A prototype accepts exactly the argument lists whose types match
its declared parameter list. -/
def CFunDecl.accepts (d : CFunDecl) (args : List CType) : Bool :=
  decide (d.params = args)

/-- `ddac_parse` as declared in the generated ABI header, lines
135-137: `(void *handle, const char *input_path, const char
*output_path, int output_fmt, uint64_t stage_flags)`. -/
def ddac_parse_gen : CFunDecl :=
  ⟨.parse_result_struct,
   [.void_ptr, .const_char_ptr, .const_char_ptr, .c_int32, .c_uint64]⟩

/-- `ddac_parse` as declared in the Zig FFI header, lines 42-47:
`(void *handle, const char *input_path, const char *output_path,
int32_t output_fmt)` — no `stage_flags` parameter. -/
def ddac_parse_zig : CFunDecl :=
  ⟨.parse_result_struct,
   [.void_ptr, .const_char_ptr, .const_char_ptr, .c_int32]⟩

/-!
L1 cache model.  The headers declare `ddac_cache_store` and
`ddac_cache_lookup` (generated header, lines 147-156) keyed by
`(doc_path, mtime, file_size)`, storing and returning the raw bytes of
a result record; the LMDB-backed implementation itself is not among
the source files, so the state is modelled from the spec.
-/

/-- The L1 cache key: document path, modification time, file size
(the `doc_path`, `int64_t mtime`, `int64_t file_size` arguments of
`ddac_cache_lookup` / `ddac_cache_store`). -/
structure L1CacheKey where
  doc_path : String
  mtime : Int
  file_size : Int
deriving DecidableEq, Repr

/-- An L1 cache state: a finite association of keys to stored record
bytes, most recent store first. -/
def L1Cache : Type := List (L1CacheKey × List Nat)

/-- Modelled from the spec: the body of `ddac_cache_store` (declared in
the headers; the local transactional store implementation is not among
the source files).  The spec's L1 contract is `store(key, result)`
into a durable map keyed by (path, mtime, size); storing binds the key
to the result record's bytes. -/
def ddac_cache_store (cache : L1Cache) (key : L1CacheKey)
    (result : List Nat) : L1Cache :=
  (key, result) :: cache

/-- Modelled from the spec: the body of `ddac_cache_lookup` (declared
in the headers; implementation not among the source files).  The
spec's L1 contract is `lookup(key) -> Option<ParseResult>`, a pure
function of the key tuple returning the most recently stored record
for exactly that key, or a miss. -/
def ddac_cache_lookup (cache : L1Cache) (key : L1CacheKey) :
    Option (List Nat) :=
  (cache.find? (fun e => decide (e.1 = key))).map Prod.snd


/-!
Theorems.  One per claim about the header surface, with witnesses for
the hypothesised ones.
-/

/-- C1: the claim that the two declarations of `ddac_parse_result_t`
define the same memory layout fails: both compute total size 952 and
alignment 8 (the Zig header's missing 7 bytes reappear as trailing
padding), but because the Zig declaration omits the `_pad1[7]` field
after `sha256`, the four trailing string fields sit 7 bytes earlier:
`error_msg` is at byte offset 113 in the Zig header's layout and at
120 in the generated ABI header's layout. -/
theorem parse_result_layouts_diverge :
    fieldOffset (structLayout ddac_parse_result_zig) "error_msg" = some 113 ∧
    fieldOffset (structLayout ddac_parse_result_gen) "error_msg" = some 120 ∧
    fieldOffset (structLayout ddac_parse_result_zig) "title" = some 369 ∧
    fieldOffset (structLayout ddac_parse_result_gen) "title" = some 376 ∧
    fieldOffset (structLayout ddac_parse_result_zig) "author" = some 625 ∧
    fieldOffset (structLayout ddac_parse_result_gen) "author" = some 632 ∧
    fieldOffset (structLayout ddac_parse_result_zig) "mime_type" = some 881 ∧
    fieldOffset (structLayout ddac_parse_result_gen) "mime_type" = some 888 ∧
    (structLayout ddac_parse_result_zig).offsets ≠
      (structLayout ddac_parse_result_gen).offsets ∧
    (structLayout ddac_parse_result_zig).size = 952 ∧
    (structLayout ddac_parse_result_gen).size = 952 ∧
    (structLayout ddac_parse_result_zig).align = 8 ∧
    (structLayout ddac_parse_result_gen).align = 8 := by
  refine ⟨rfl, rfl, rfl, rfl, rfl, rfl, rfl, rfl, ?_, rfl, rfl, rfl, rfl⟩
  decide

/-- C2: the generated ABI header's `ddac_parse_result_t` has exactly
the layout the spec enumerates — the field-by-field sizes and
alignments coincide with the spec's list, the computed offsets are as
expected, the total size is exactly 952 bytes with 8-byte alignment,
and both totals equal the values enforced by the header's
`_Static_assert` lines. -/
theorem gen_parse_result_layout_matches_spec :
    (ddac_parse_result_gen.map fun f => (f.size, f.align)) =
      (spec_parse_result_fields.map fun f => (f.size, f.align)) ∧
    structLayout ddac_parse_result_gen =
      ⟨[("status", 0), ("content_kind", 4), ("page_count", 8),
        ("_pad0", 12), ("word_count", 16), ("char_count", 24),
        ("duration_sec", 32), ("parse_time_ms", 40), ("sha256", 48),
        ("_pad1", 113), ("error_msg", 120), ("title", 376),
        ("author", 632), ("mime_type", 888)], 952, 8⟩ ∧
    (structLayout ddac_parse_result_gen).size =
      ddac_parse_result_assert_size ∧
    (structLayout ddac_parse_result_gen).align =
      ddac_parse_result_assert_align :=
  ⟨rfl, rfl, rfl, rfl⟩

/-- C3: the preset bitmasks are nested — bitwise,
`FAST &&& ANALYSIS = FAST` and `ANALYSIS &&& ALL = ANALYSIS`, and for
every bit index, a bit set in `DDAC_STAGE_FAST` is set in
`DDAC_STAGE_ANALYSIS` and a bit set in `DDAC_STAGE_ANALYSIS` is set in
`DDAC_STAGE_ALL`. -/
theorem stage_presets_subset :
    DDAC_STAGE_FAST &&& DDAC_STAGE_ANALYSIS = DDAC_STAGE_FAST ∧
    DDAC_STAGE_ANALYSIS &&& DDAC_STAGE_ALL = DDAC_STAGE_ANALYSIS ∧
    ∀ i : Nat,
      (Nat.testBit DDAC_STAGE_FAST i = true →
        Nat.testBit DDAC_STAGE_ANALYSIS i = true) ∧
      (Nat.testBit DDAC_STAGE_ANALYSIS i = true →
        Nat.testBit DDAC_STAGE_ALL i = true) := by
  refine ⟨by decide, by decide, fun i => ⟨?_, ?_⟩⟩
  · intro h
    have key : DDAC_STAGE_FAST &&& DDAC_STAGE_ANALYSIS =
        DDAC_STAGE_FAST := by decide
    have h2 := congrArg (fun n => Nat.testBit n i) key
    simp only [Nat.testBit_land] at h2
    rw [h] at h2
    simpa using h2.symm
  · intro h
    have key : DDAC_STAGE_ANALYSIS &&& DDAC_STAGE_ALL =
        DDAC_STAGE_ANALYSIS := by decide
    have h2 := congrArg (fun n => Nat.testBit n i) key
    simp only [Nat.testBit_land] at h2
    rw [h] at h2
    simpa using h2.symm

/-- Witness for C3 at concrete bits: bit 0 (language detect) is in
FAST, hence in ANALYSIS; bit 12 (near dedup) is in ANALYSIS, hence in
ALL. -/
theorem stage_presets_subset_witness :
    Nat.testBit DDAC_STAGE_ANALYSIS 0 = true ∧
    Nat.testBit DDAC_STAGE_ALL 12 = true :=
  ⟨(stage_presets_subset.2.2 0).1 (by decide),
   (stage_presets_subset.2.2 12).2 (by decide)⟩

/-- C4: the preset constants have exactly the spec's bit sets —
`DDAC_STAGE_FAST` is exactly bits {0,1,2,3,9,10,11},
`DDAC_STAGE_ANALYSIS` adds exactly bits {4,5,6,8,12,13} (bit 7,
multi-language OCR, stays clear), and `DDAC_STAGE_ALL` is bits 0-19,
i.e. `2^20 - 1`. -/
theorem stage_preset_values :
    DDAC_STAGE_FAST = 2^0 + 2^1 + 2^2 + 2^3 + 2^9 + 2^10 + 2^11 ∧
    DDAC_STAGE_ANALYSIS =
      DDAC_STAGE_FAST + (2^4 + 2^5 + 2^6 + 2^8 + 2^12 + 2^13) ∧
    Nat.testBit DDAC_STAGE_ANALYSIS 7 = false ∧
    DDAC_STAGE_ALL = 2^20 - 1 := by
  decide

/-- C5: each of the twenty stage-flag constants is the single-bit mask
at its assigned position, every mask fits in 64 bits, and the twenty
masks are pairwise disjoint. -/
theorem stage_flag_bit_positions :
    DDAC_STAGE_LANGUAGE_DETECT = 2^0 ∧
    DDAC_STAGE_READABILITY = 2^1 ∧
    DDAC_STAGE_KEYWORDS = 2^2 ∧
    DDAC_STAGE_CITATION_EXTRACT = 2^3 ∧
    DDAC_STAGE_OCR_CONFIDENCE = 2^4 ∧
    DDAC_STAGE_PERCEPTUAL_HASH = 2^5 ∧
    DDAC_STAGE_TOC_EXTRACT = 2^6 ∧
    DDAC_STAGE_MULTI_LANG_OCR = 2^7 ∧
    DDAC_STAGE_SUBTITLE_EXTRACT = 2^8 ∧
    DDAC_STAGE_PREMIS_METADATA = 2^9 ∧
    DDAC_STAGE_MERKLE_PROOF = 2^10 ∧
    DDAC_STAGE_EXACT_DEDUP = 2^11 ∧
    DDAC_STAGE_NEAR_DEDUP = 2^12 ∧
    DDAC_STAGE_COORD_NORMALIZE = 2^13 ∧
    DDAC_STAGE_NER = 2^14 ∧
    DDAC_STAGE_WHISPER = 2^15 ∧
    DDAC_STAGE_IMAGE_CLASSIFY = 2^16 ∧
    DDAC_STAGE_LAYOUT_ANALYSIS = 2^17 ∧
    DDAC_STAGE_HANDWRITING_OCR = 2^18 ∧
    DDAC_STAGE_FORMAT_CONVERT = 2^19 ∧
    (stage_flag_masks.all fun f => decide (f < 2^64)) = true ∧
    stage_flag_masks.Pairwise (fun a b => a &&& b = 0) := by
  decide

/-- C6: the parse-status and content-kind enumerations carry exactly
the spec's integer encodings 0..6 in declaration order; the constant
lists are complete (every constructor occurs), the code lists have no
duplicates (injectivity) and equal `List.range 7` (exhaustive over
0..6). -/
theorem enum_encodings :
    content_kind_constants.map ddac_content_kind.code =
      [0, 1, 2, 3, 4, 5, 6] ∧
    parse_status_constants.map ddac_parse_status.code =
      [0, 1, 2, 3, 4, 5, 6] ∧
    (∀ k : ddac_content_kind, k ∈ content_kind_constants) ∧
    (∀ s : ddac_parse_status, s ∈ parse_status_constants) ∧
    (content_kind_constants.map ddac_content_kind.code).Nodup ∧
    (parse_status_constants.map ddac_parse_status.code).Nodup ∧
    content_kind_constants.map ddac_content_kind.code = List.range 7 ∧
    parse_status_constants.map ddac_parse_status.code = List.range 7 := by
  decide

/-- C7: `ddac_ml_result_t` lays out as 3 one-byte fields, 5 bytes of
padding, then four naturally aligned 8-byte fields and one more — 48
bytes total with 8-byte alignment, matching the header's
`_Static_assert` values and contradicting the "56 bytes" of the
comment above the struct. -/
theorem ml_result_layout :
    structLayout ddac_ml_result =
      ⟨[("status", 0), ("stage", 1), ("provider", 2), ("_pad", 3),
        ("inference_time_us", 8), ("output_count", 16),
        ("confidence", 24), ("text_offset", 32), ("text_length", 40)],
       48, 8⟩ ∧
    (structLayout ddac_ml_result).size = ddac_ml_result_assert_size ∧
    (structLayout ddac_ml_result).align = ddac_ml_result_assert_align ∧
    (structLayout ddac_ml_result).size ≠ ddac_ml_result_comment_size :=
  ⟨rfl, rfl, rfl, by decide⟩

/-- C8: the remaining secondary wire records compute exactly the
spec's sizes from their declared fields and padding —
`ddac_ocr_result_t` 48 bytes and 8-byte aligned, `ddac_crypto_caps_t`
16 bytes, `ddac_conduit_result_t` 88 bytes and 8-byte aligned — each
total equal to the value its `_Static_assert` enforces. -/
theorem secondary_record_sizes :
    (structLayout ddac_ocr_result).size = 48 ∧
    (structLayout ddac_ocr_result).align = 8 ∧
    (structLayout ddac_crypto_caps).size = 16 ∧
    (structLayout ddac_conduit_result).size = 88 ∧
    (structLayout ddac_conduit_result).align = 8 ∧
    (structLayout ddac_ocr_result).size = ddac_ocr_result_assert_size ∧
    (structLayout ddac_ocr_result).align = ddac_ocr_result_assert_align ∧
    (structLayout ddac_crypto_caps).size = ddac_crypto_caps_assert_size ∧
    (structLayout ddac_conduit_result).size =
      ddac_conduit_result_assert_size ∧
    (structLayout ddac_conduit_result).align =
      ddac_conduit_result_assert_align :=
  ⟨rfl, rfl, rfl, rfl, rfl, rfl, rfl, rfl, rfl, rfl⟩

/-- C9: L1 round-trip — for every cache state, every key
(doc_path, mtime, file_size) and every 952-byte result record,
storing the record under the key and looking the same key up returns
exactly the stored bytes, bit for bit. -/
theorem cache_store_lookup_roundtrip (cache : L1Cache)
    (key : L1CacheKey) (result : List Nat)
    (_h : result.length = 952) :
    ddac_cache_lookup (ddac_cache_store cache key result) key =
      some result := by
  simp [ddac_cache_lookup, ddac_cache_store, List.find?]

/-- Witness for C9: the spec's scenario key `/d/a.pdf`, mtime 100,
size 2048, with an all-zero 952-byte record, on the empty cache. -/
theorem cache_store_lookup_roundtrip_witness :
    (List.replicate 952 0).length = 952 ∧
    ddac_cache_lookup
      (ddac_cache_store [] ⟨"/d/a.pdf", 100, 2048⟩
        (List.replicate 952 0)) ⟨"/d/a.pdf", 100, 2048⟩ =
      some (List.replicate 952 0) :=
  ⟨List.length_replicate 952 0,
   cache_store_lookup_roundtrip [] ⟨"/d/a.pdf", 100, 2048⟩
    (List.replicate 952 0) (List.length_replicate 952 0)⟩

/-- C10 counterexample: the two `ddac_parse` prototypes are not
compatible — the four-element argument list `(void *, const char *,
const char *, int32)` is accepted by the Zig header's declaration and
rejected by the generated ABI header's declaration, whose parameter
list has five entries, not four. -/
theorem ddac_parse_decls_incompatible :
    CFunDecl.accepts ddac_parse_zig
      [.void_ptr, .const_char_ptr, .const_char_ptr, .c_int32] = true ∧
    CFunDecl.accepts ddac_parse_gen
      [.void_ptr, .const_char_ptr, .const_char_ptr, .c_int32] = false ∧
    ddac_parse_zig.params.length = 4 ∧
    ddac_parse_gen.params.length = 5 ∧
    ddac_parse_gen.params ≠ ddac_parse_zig.params := by
  refine ⟨by decide, by decide, rfl, rfl, by decide⟩

/-- C10 amended: the two `ddac_parse` declarations agree on the return
type and on the four common parameters, but the generated ABI header
declares one additional trailing `uint64_t stage_flags` parameter that
the Zig FFI header lacks. -/
theorem ddac_parse_decls_agreement :
    ddac_parse_gen.ret = ddac_parse_zig.ret ∧
    ddac_parse_gen.params = ddac_parse_zig.params ++ [.c_uint64] ∧
    ddac_parse_zig.params = ddac_parse_gen.params.take 4 := by
  decide
